import Mathlib

/-!
# Verification of the UwU music player playback core

Shallow embedding of the playback engine of the two player variants:

* `src/moz.cpp` — PipeWire variant: globals `is_playing`, `is_paused`,
  `total_frames`, `current_frame`; `PlayAudio` / `StopAudio` session
  controller; `on_process` real-time callback; `progressive_stream_youtube`
  FIFO acquisition pipeline; `generateASCIIArt`.
* `src/mz.cpp` — PortAudio variant: same globals; `PlayAudio`; `paCallback`
  real-time callback; the playback-TUI key handlers.

Machine integers (`sf_count_t`, `size_t`, `int`) are modelled as `Nat`: all
quantities involved (frame counts, positions, brightness values) are
non-negative and far below any overflow boundary in the modelled code.
Audio samples are modelled as `Int` (only zero vs. non-zero matters to the
spec claims). Fallible external calls (`sf_open`, `pw_main_loop_new`,
`pw_stream_new_simple`, `Pa_Initialize`, `Pa_OpenStream`, `Pa_StartStream`,
`mkfifo`, `system`) are modelled by explicit environment records stating
which call succeeds.
-/

/-- A libsndfile handle (`SNDFILE*` plus its frame data): total length in
frames, current read position, and the decoded frame content.  `sf_readf_*`
on a regular file returns `min requested (len - pos)` frames and advances
the position by that amount; `sf_seek(sf, 0, SF_SEEK_CUR)` reports the
current position. -/
structure SndFile where
  len : Nat
  pos : Nat
  content : Nat → Int

/-- `sf_seek(sf, 0, SF_SEEK_CUR)`: report the absolute frame position. -/
def sf_seek_cur (sf : SndFile) : Nat := sf.pos

/-- `sf_readf_float`/`sf_readf_short` on a file handle: read up to `n`
frames, return the count actually read and the advanced handle. -/
def sf_readf (sf : SndFile) (n : Nat) : Nat × SndFile :=
  let r := min n (sf.len - sf.pos)
  (r, { sf with pos := sf.pos + r })

/-- The frames `sf.content pos, …, sf.content (pos+r-1)` that a read of `r`
frames deposits at the start of the output buffer. -/
def writeFrames (sf : SndFile) (r : Nat) : List Int :=
  (List.range r).map (fun i => sf.content (sf.pos + i))

/-- The four process-wide atomics of `moz.cpp`/`mz.cpp`:
`std::atomic<bool> is_playing, is_paused;`
`std::atomic<sf_count_t> total_frames, current_frame;`
(`is_playing` is the spec's `is_active`). -/
structure Transport where
  is_playing : Bool
  is_paused : Bool
  total_frames : Nat
  current_frame : Nat
deriving DecidableEq

namespace Moz

/-- Global controller state of `moz.cpp`: the transport atomics plus
`PWData* g_pw_data` — `some sf` when a session (stream + loop + open
sndfile) is held, `none` when `g_pw_data == nullptr`. -/
structure State where
  tr : Transport
  g_pw_data : Option SndFile

/-- `StopAudio()` (moz.cpp:368-390).  Returns the new state together with
the list of resources released (`pw_stream_destroy`, `pw_main_loop_destroy`,
`sf_close`).  When `g_pw_data == nullptr` it returns immediately, releasing
nothing. -/
def StopAudio (s : State) : State × List String :=
  match s.g_pw_data with
  | none => (s, [])
  | some _ =>
    (⟨⟨false, false, 0, 0⟩, none⟩,
     ["pw_stream_destroy", "pw_main_loop_destroy", "sf_close"])

/-- Success/failure of the external calls made by `PlayAudio`
(moz.cpp:281-366): what `sf_open` returns, and whether
`pw_main_loop_new` and `pw_stream_new_simple` succeed. -/
structure Env where
  openResult : Option SndFile
  loopOk : Bool
  streamOk : Bool

/-- `PlayAudio(file_path)` (moz.cpp:281-366), step by step:
1. `if (g_pw_data) StopAudio();`
2. `sf_open` — on failure, delete `g_pw_data`, return (no field touched);
3. `sf_seek(END)`, `total_frames = sf_seek(CUR)`, `sf_seek(SET,0)`,
   `current_frame = 0` — note these run *before* any PipeWire call;
4. `pw_main_loop_new` — on failure, `sf_close`, delete, return;
5. `pw_stream_new_simple` — on failure, destroy loop, `sf_close`, delete,
   return;
6. on success the session holds the rewound sndfile handle.
`is_playing`/`is_paused` are never written by `PlayAudio` itself (only by
the `StopAudio` it may invoke first). -/
def PlayAudio (env : Env) (s : State) : State :=
  let s1 := if s.g_pw_data.isSome then (StopAudio s).1 else s
  match env.openResult with
  | none => { s1 with g_pw_data := none }
  | some f =>
    let f1 : SndFile := { f with pos := f.len }
    let total := sf_seek_cur f1
    let f2 : SndFile := { f1 with pos := 0 }
    let tr2 : Transport := { s1.tr with total_frames := total, current_frame := 0 }
    if env.loopOk = false then { tr := tr2, g_pw_data := none }
    else if env.streamOk = false then { tr := tr2, g_pw_data := none }
    else { tr := tr2, g_pw_data := some f2 }

/-- The PipeWire `on_process` callback (moz.cpp:233-273), acting on the
transport atomics, the session's sndfile and the dequeued output buffer
`buf` (one `Int` per frame; `n_frames = buf.length`):
* paused: `memset(dst, 0, …)` over the whole buffer, no read, no
  transport write;
* otherwise: `sf_readf_float`, then `current_frame = sf_seek(CUR)`;
  if `frames_read < n_frames` the remainder is `memset` to zero, and if
  `frames_read == 0` then `is_playing = false`. -/
def on_process (tr : Transport) (sf : SndFile) (buf : List Int) :
    Transport × SndFile × List Int :=
  let n := buf.length
  if tr.is_paused then
    (tr, sf, List.replicate n 0)
  else
    let rs := sf_readf sf n
    let r := rs.1
    let sf2 := rs.2
    let tr2 : Transport := { tr with current_frame := sf_seek_cur sf2 }
    let out := writeFrames sf r ++ List.replicate (n - r) 0
    if r = 0 then ({ tr2 with is_playing := false }, sf2, out)
    else (tr2, sf2, out)

/-- A sequence of `on_process` invocations (the callback fires repeatedly
on the real-time thread); each element of `bufs` is the dequeued buffer of
one invocation. -/
def runCallbacks (tr : Transport) (sf : SndFile) :
    List (List Int) → Transport × SndFile
  | [] => (tr, sf)
  | b :: rest =>
    let o := on_process tr sf b
    runCallbacks o.1 o.2.1 rest

/-- Keys handled by the `progressive_stream_youtube` control loop. -/
inductive Key
  | q
  | space
  | other
deriving DecidableEq

/-- Body of the `while(is_playing)` control loop of
`progressive_stream_youtube` (moz.cpp:607-635): `'q'` clears `is_playing`
(and pkills the producer — effect not tracked here); `' '` flips
`is_paused` (moz.cpp:614-617); anything else only redraws. -/
def streamHandleKey (s : State) (k : Key) : State :=
  match k with
  | Key.q => { s with tr := { s.tr with is_playing := false } }
  | Key.space => { s with tr := { s.tr with is_paused := !s.tr.is_paused } }
  | Key.other => s

/-- One iteration of the `while(is_playing)` loop: the body (and hence the
pause toggle) runs only when `is_playing` held at the loop head. -/
def streamLoopStep (s : State) (k : Key) : State :=
  if s.tr.is_playing then streamHandleKey s k else s

/-- The `case ' '` handler of `run_playback_tui` (moz.cpp:902-906):
`if (is_playing) is_paused = !is_paused;`. -/
def tuiSpaceKey (s : State) : State :=
  if s.tr.is_playing then { s with tr := { s.tr with is_paused := !s.tr.is_paused } }
  else s

end Moz

/-! ## ASCII-art generator (`generateASCIIArt`, moz.cpp:61-176 and
mz.cpp:48-164 — the two copies are textually identical) -/

/-- `const std::string ASCII_CHARS = " .:-=+*#%@";` -/
def ASCII_CHARS : List Char := [' ', '.', ':', '-', '=', '+', '*', '#', '%', '@']

/-- `const int THUMBNAIL_WIDTH = 40;` -/
def THUMBNAIL_WIDTH : Nat := 40

/-- `const int THUMBNAIL_HEIGHT = 20;` -/
def THUMBNAIL_HEIGHT : Nat := 20

/-- The `musicPattern` placeholder drawn when `imageData` is null or empty
(moz.cpp:66-87), verbatim. -/
def musicPattern : List String :=
  ["+--------------------------------------+",
   "|            ALBUM ARTWORK             |",
   "|               ~ * ~                  |",
   "|          +-------------+             |",
   "|          |  *       ~  |             |",
   "|          |             |             |",
   "|          |    ~   *    |             |",
   "|          |             |             |",
   "|          |  *       ~  |             |",
   "|          +-------------+             |",
   "|                                      |",
   "|         ##############               |",
   "|         ##          ##               |",
   "|         ##    *~    ##               |",
   "|         ##          ##               |",
   "|         ##############               |",
   "|                                      |",
   "|            NO IMAGE FOUND            |",
   "+--------------------------------------+",
   "                                        "]

/-- The per-line adjustment of the placeholder loop (moz.cpp:90-96):
truncate to `THUMBNAIL_WIDTH` if longer, pad with spaces if shorter. -/
def padTruncLine (line : String) : List Char :=
  let l := line.toList
  if THUMBNAIL_WIDTH < l.length then l.take THUMBNAIL_WIDTH
  else l ++ List.replicate (THUMBNAIL_WIDTH - l.length) ' '

/-- The placeholder art: row `i` is `musicPattern[i]` truncated/padded
(the loop runs for `i < THUMBNAIL_HEIGHT && i < musicPattern.size()`;
rows beyond the pattern would keep the initial all-spaces fill). -/
def placeholderArt : List (List Char) :=
  (List.range THUMBNAIL_HEIGHT).map (fun i =>
    if i < musicPattern.length then padTruncLine (musicPattern.getD i "")
    else List.replicate THUMBNAIL_WIDTH ' ')

/-- `(byte1 * 299 + byte2 * 587 + byte3 * 114) / 1000` — the brightness of
the three consecutive bytes at `index`, `(index+1) % dataSize`,
`(index+2) % dataSize` (moz.cpp:122-128). -/
def pixelBrightness (img : List Nat) (index : Nat) : Nat :=
  let byte1 := img.getD index 0
  let byte2 := img.getD ((index + 1) % img.length) 0
  let byte3 := img.getD ((index + 2) % img.length) 0
  (byte1 * 299 + byte2 * 587 + byte3 * 114) / 1000

/-- The nine `(sy, sx)` offsets of the 3x3 sampling loop, in loop order
(moz.cpp:110-111). -/
def sampleOffsets : List (Int × Int) :=
  [(-1, -1), (-1, 0), (-1, 1), (0, -1), (0, 0), (0, 1), (1, -1), (1, 0), (1, 1)]

/-- `brightness[y][x]` after the sampling pass (moz.cpp:103-140): average
(integer division) of the pixel brightness over the in-bounds samples of
the 3x3 neighbourhood whose derived byte index is `< dataSize`; `0` (the
grid's initial value) when no sample qualifies. -/
def brightnessCell (img : List Nat) (y x : Nat) : Nat :=
  let samples := sampleOffsets.filterMap (fun p =>
    let sampleY : Int := (y : Int) + p.1
    let sampleX : Int := (x : Int) + p.2
    if 0 ≤ sampleY ∧ sampleY < (THUMBNAIL_HEIGHT : Int) ∧
        0 ≤ sampleX ∧ sampleX < (THUMBNAIL_WIDTH : Int) then
      let index := ((sampleY.toNat * THUMBNAIL_WIDTH + sampleX.toNat) * img.length) /
        (THUMBNAIL_WIDTH * THUMBNAIL_HEIGHT)
      if index < img.length then some (pixelBrightness img index) else none
    else none)
  if 0 < samples.length then (samples.foldl (· + ·) 0) / samples.length else 0

/-- The 3x3 smoothing of the brightness grid (moz.cpp:143-147), defined for
the interior cells `1 ≤ y ≤ 18`, `1 ≤ x ≤ 38` (the smoothing loop reads the
unmodified brightness grid, so per-cell recomputation is exact). -/
def smoothedBrightness (img : List Nat) (y x : Nat) : Nat :=
  (brightnessCell img (y - 1) (x - 1) + brightnessCell img (y - 1) x +
   brightnessCell img (y - 1) (x + 1) +
   brightnessCell img y (x - 1) + brightnessCell img y x * 2 +
   brightnessCell img y (x + 1) +
   brightnessCell img (y + 1) (x - 1) + brightnessCell img (y + 1) x +
   brightnessCell img (y + 1) (x + 1)) / 10

/-- Final character of cell `(y, x)` (for `y < 20`, `x < 40`) of the image
branch of `generateASCIIArt`.  The imperative code writes the grid in three
passes — initial all-spaces fill, smoothing pass over the interior
`1 ≤ y ≤ 18`, `1 ≤ x ≤ 38` (moz.cpp:143-153), then the border loops that
overwrite columns 0 and 39 with `'|'` (moz.cpp:156-162) and rows 0 and 19
with `'-'`/corner `'+'` (moz.cpp:163-173).  Every cell of the 20x40 grid is
therefore last written as follows (the smoothing pass covers the whole
non-border interior, so the initial fill survives nowhere). -/
def artCell (img : List Nat) (y x : Nat) : Char :=
  if y = 0 ∨ y = THUMBNAIL_HEIGHT - 1 then
    (if x = 0 ∨ x = THUMBNAIL_WIDTH - 1 then '+' else '-')
  else if x = 0 ∨ x = THUMBNAIL_WIDTH - 1 then '|'
  else
    ASCII_CHARS.getD
      (min (ASCII_CHARS.length - 1)
        ((smoothedBrightness img y x * (ASCII_CHARS.length - 1)) / 255)) ' '

/-- `generateASCIIArt(imageData, dataSize)` (moz.cpp:61-176).  The input is
`none` for a null `imageData` pointer, `some img` for a buffer whose bytes
are `img` and whose `dataSize` is `img.length` (as at both call sites). -/
def generateASCIIArt (imageData : Option (List Nat)) : List (List Char) :=
  match imageData with
  | none => placeholderArt
  | some img =>
    if img.length = 0 then placeholderArt
    else
      (List.range THUMBNAIL_HEIGHT).map (fun y =>
        (List.range THUMBNAIL_WIDTH).map (fun x => artCell img y x))

/-- Outcome of a PortAudio callback invocation: `paContinue` or
`paComplete`. -/
inductive PaRet
  | paContinue
  | paComplete
deriving DecidableEq

namespace Mz

/-- The PortAudio `paCallback` (mz.cpp:202-224), acting on the transport
atomics, the sndfile passed as `userData` and the output buffer `buf` (one
`Int` per frame; `framesPerBuffer = buf.length`):
* paused: the whole buffer is `memset` to zero (the C code zeroes
  `framesPerBuffer * sizeof(short) * 2` bytes, i.e. all frames of a
  two-channel buffer) and `paContinue` is returned, with no read and no
  transport write;
* otherwise: `sf_readf_short` writes the first `framesRead` frames — the
  remainder of the buffer is left as it was (no zero fill) — then
  `current_frame = sf_seek(CUR)`; if `framesRead > 0 && is_playing` the
  callback returns `paContinue`, else it clears `is_playing` and returns
  `paComplete`. -/
def paCallback (tr : Transport) (sf : SndFile) (buf : List Int) :
    Transport × SndFile × List Int × PaRet :=
  let n := buf.length
  if tr.is_paused then
    (tr, sf, List.replicate n 0, PaRet.paContinue)
  else
    let rs := sf_readf sf n
    let r := rs.1
    let sf2 := rs.2
    let tr2 : Transport := { tr with current_frame := sf_seek_cur sf2 }
    let out := writeFrames sf r ++ buf.drop r
    if 0 < r ∧ tr.is_playing = true then
      (tr2, sf2, out, PaRet.paContinue)
    else
      ({ tr2 with is_playing := false }, sf2, out, PaRet.paComplete)

/-- Controller-visible state of `mz.cpp`'s playback TUI: the transport
atomics plus the `PaStream* stream` (held open or not) and the
`SNDFILE* sf` local to `run_playback_tui`. -/
structure State where
  tr : Transport
  streamOpen : Bool
  sf : Option SndFile

/-- Success/failure of the external calls made by `mz.cpp`'s `PlayAudio`
(mz.cpp:227-262): what `sf_open` returns, and whether `Pa_Initialize`,
`Pa_OpenStream` and `Pa_StartStream` succeed. -/
structure Env where
  openResult : Option SndFile
  paInitOk : Bool
  openStreamOk : Bool
  startOk : Bool

/-- `PlayAudio(file_path, stream, sf, sfinfo)` (mz.cpp:227-262), step by
step:
1. `sf_open` — on failure return (nothing touched);
2. `Pa_Initialize` — on failure `sf_close`, return (transport untouched);
3. `sf_seek(END)`, `total_frames = sf_seek(CUR)`, `sf_seek(SET,0)`,
   `current_frame = 0` — these run *before* the stream is opened;
4. `Pa_OpenStream` — on failure `Pa_Terminate`, `sf_close`, return;
5. `Pa_StartStream` — on failure `Pa_CloseStream`, `Pa_Terminate`,
   `sf_close`, return;
6. on success the stream is running against the rewound handle.
`is_playing`/`is_paused` are never written by this function. -/
def PlayAudio (env : Env) (s : State) : State :=
  match env.openResult with
  | none => s
  | some f =>
    if env.paInitOk = false then { s with sf := none, streamOpen := false }
    else
      let f1 : SndFile := { f with pos := f.len }
      let total := sf_seek_cur f1
      let f2 : SndFile := { f1 with pos := 0 }
      let tr2 : Transport := { s.tr with total_frames := total, current_frame := 0 }
      if env.openStreamOk = false then { tr := tr2, streamOpen := false, sf := none }
      else if env.startOk = false then { tr := tr2, streamOpen := false, sf := none }
      else { tr := tr2, streamOpen := true, sf := some f2 }

/-- The Enter-key branch of `run_playback_tui` (mz.cpp:438-450): if a
session is playing, stop it to completion first (`Pa_StopStream`,
`Pa_CloseStream`, `Pa_Terminate`, `sf_close`, clear `is_playing` and
`is_paused`), then call `PlayAudio` on the selected file and set
`is_playing`. -/
def tuiEnterKey (env : Env) (s : State) : State :=
  let s1 := if s.tr.is_playing then
      { tr := { s.tr with is_playing := false, is_paused := false },
        streamOpen := false, sf := none }
    else s
  let s2 := PlayAudio env s1
  { s2 with tr := { s2.tr with is_playing := true } }

end Mz

namespace Moz

/-! ## Acquisition pipeline (`progressive_stream_youtube`, moz.cpp:527-646)

The filesystem is modelled as the list of paths that currently exist; the
pipeline's effect on it is what the claims are about.  `mkfifoOk` models
whether `mkfifo` succeeds, `launchOk` whether `system(dl_command)` returns
zero, and `producerWroteCache` whether the spawned producer ever created
the cache file before teardown. -/

/-- `unlink(p)`: remove path `p` from the filesystem. -/
def fsRemove (fs : List String) (p : String) : List String :=
  fs.filter (fun q => q != p)

/-- Create path `p` (e.g. `mkfifo`, or the producer's `tee` creating the
cache file). -/
def fsAdd (fs : List String) (p : String) : List String :=
  if p ∈ fs then fs else p :: fs

/-- The filesystem as it stands when `mkfifo` is about to run: the stale
FIFO from any previous run has just been `unlink`ed (moz.cpp:547). -/
def streamPreCreate (fs : List String) (fifo : String) : List String :=
  fsRemove fs fifo

/-- Filesystem effect of `progressive_stream_youtube` (moz.cpp:527-646):
1. `unlink(fifo_path)` — remove any stale FIFO (moz.cpp:547);
2. `mkfifo` — on failure, return (moz.cpp:550-555);
3. `system(dl_command)` — on nonzero result, `unlink(fifo_path)` and
   return (moz.cpp:570-578);
4. otherwise the producer may create/fill the cache file while the control
   loop runs, and after the loop exits the FIFO is `unlink`ed
   (moz.cpp:645). -/
def progressive_stream_youtube (fs : List String) (fifo cache : String)
    (mkfifoOk launchOk producerWroteCache : Bool) : List String :=
  let fs1 := streamPreCreate fs fifo
  if mkfifoOk = false then fs1
  else
    let fs2 := fsAdd fs1 fifo
    if launchOk = false then fsRemove fs2 fifo
    else
      let fs3 := if producerWroteCache then fsAdd fs2 cache else fs2
      fsRemove fs3 fifo

end Moz

/-! ## Concrete fixtures used by witnesses and counterexamples -/

/-- Transport at rest: nothing playing, counters zero. -/
def trIdle : Transport := ⟨false, false, 0, 0⟩

/-- Transport mid-playback, not paused. -/
def trRun : Transport := ⟨true, false, 10, 3⟩

/-- Transport mid-playback, paused. -/
def trPause : Transport := ⟨true, true, 10, 3⟩

/-- A one-frame source positioned at the start. -/
def sfMid : SndFile := ⟨1, 0, fun _ => 5⟩

/-- A one-frame source already exhausted. -/
def sfEnd : SndFile := ⟨1, 1, fun _ => 5⟩

/-- A 100-frame source as `sf_open` returns it. -/
def sfHundred : SndFile := ⟨100, 0, fun _ => 0⟩

/-- moz controller state with no session. -/
def mozIdle : Moz.State := ⟨trIdle, none⟩

/-- moz controller state with an active session. -/
def mozA : Moz.State := ⟨trRun, some sfMid⟩

/-- moz controller state, inactive but with stale counters. -/
def mozInactive : Moz.State := ⟨⟨false, false, 7, 2⟩, none⟩

/-- mz controller state with no stream. -/
def mzIdle : Mz.State := ⟨trIdle, false, none⟩

/-- A moz play environment where `sf_open` succeeds but
`pw_main_loop_new` fails. -/
def envLoopFail : Moz.Env := ⟨some sfHundred, false, true⟩

/-- An mz play environment where `sf_open` and `Pa_Initialize` succeed but
`Pa_OpenStream` fails. -/
def mzEnvFail : Mz.Env := ⟨some sfHundred, true, false, true⟩

/-- A small non-empty image buffer. -/
def imgSmall : List Nat := [17, 230, 99, 4]

/-! ## Claim theorems -/

/-- C6: on every run of the acquisition pipeline the stale channel entry at
the FIFO path is removed before the channel is created, and on every exit
path — creation failure, producer launch failure, or normal end of
streaming, even if the producer never wrote a byte — the channel path does
not exist afterwards. -/
theorem pipeline_channel_always_removed (fs : List String) (fifo cache : String)
    (mkfifoOk launchOk producerWroteCache : Bool) :
    fifo ∉ Moz.streamPreCreate fs fifo ∧
    fifo ∉ Moz.progressive_stream_youtube fs fifo cache mkfifoOk launchOk
      producerWroteCache := by
  have hrem : ∀ l : List String, fifo ∉ Moz.fsRemove l fifo := by
    intro l hmem
    rcases List.mem_filter.mp hmem with ⟨-, hne⟩
    simp at hne
  refine ⟨hrem fs, ?_⟩
  cases mkfifoOk <;> cases launchOk <;> cases producerWroteCache <;>
    simp only [Moz.progressive_stream_youtube, Moz.streamPreCreate] <;>
    first
      | exact hrem fs
      | exact hrem _

/-- C7: `StopAudio` is idempotent — with no session active it is a no-op
that releases nothing, and a second `StopAudio` after any `StopAudio`
changes nothing and releases nothing a second time. -/
theorem stopAudio_idempotent (s : Moz.State) (h : s.g_pw_data = none) :
    Moz.StopAudio s = (s, []) ∧
    (∀ t : Moz.State,
      (Moz.StopAudio (Moz.StopAudio t).1).1 = (Moz.StopAudio t).1 ∧
      (Moz.StopAudio (Moz.StopAudio t).1).2 = []) := by
  constructor
  · simp [Moz.StopAudio, h]
  · intro t
    cases ht : t.g_pw_data <;> simp [Moz.StopAudio, ht]

/-- Witness for C7 at concrete states: idle state is untouched, and a
double stop from an active state equals a single stop and releases nothing
the second time. -/
theorem stopAudio_idempotent_witness :
    Moz.StopAudio mozIdle = (mozIdle, []) ∧
    (Moz.StopAudio (Moz.StopAudio mozA).1).1 = (Moz.StopAudio mozA).1 ∧
    (Moz.StopAudio (Moz.StopAudio mozA).1).2 = [] :=
  ⟨(stopAudio_idempotent mozIdle rfl).1,
   ((stopAudio_idempotent mozIdle rfl).2 mozA).1,
   ((stopAudio_idempotent mozIdle rfl).2 mozA).2⟩

/-- C8: when `is_playing` is false, both pause-toggle sites — the TUI
space-key handler and an iteration of the streaming control loop — are
no-ops: the state (in particular `is_paused`) is unchanged, and a false
`is_paused` stays false. -/
theorem togglePause_inactive_noop (s : Moz.State) (k : Moz.Key)
    (h : s.tr.is_playing = false) :
    Moz.tuiSpaceKey s = s ∧
    Moz.streamLoopStep s k = s ∧
    (Moz.tuiSpaceKey s).tr.is_paused = s.tr.is_paused ∧
    (Moz.streamLoopStep s k).tr.is_paused = s.tr.is_paused ∧
    (s.tr.is_paused = false →
      (Moz.tuiSpaceKey s).tr.is_paused = false ∧
      (Moz.streamLoopStep s k).tr.is_paused = false) := by
  have h1 : Moz.tuiSpaceKey s = s := by simp [Moz.tuiSpaceKey, h]
  have h2 : Moz.streamLoopStep s k = s := by simp [Moz.streamLoopStep, h]
  refine ⟨h1, h2, by rw [h1], by rw [h2], fun hp => ⟨by rw [h1, hp], by rw [h2, hp]⟩⟩

/-- Witness for C8 at a concrete inactive state with `is_paused = false`. -/
theorem togglePause_inactive_noop_witness :
    Moz.tuiSpaceKey mozInactive = mozInactive ∧
    Moz.streamLoopStep mozInactive Moz.Key.space = mozInactive ∧
    (Moz.tuiSpaceKey mozInactive).tr.is_paused = false ∧
    (Moz.streamLoopStep mozInactive Moz.Key.space).tr.is_paused = false :=
  have h := togglePause_inactive_noop mozInactive Moz.Key.space rfl
  ⟨h.1, h.2.1, (h.2.2.2.2 rfl).1, (h.2.2.2.2 rfl).2⟩

/-- C9: in both variants, a successful `PlayAudio` establishes
`total_frames` as the source's total frame count, rewinds the source to
frame 0, and sets `current_frame` to 0. -/
theorem playAudio_establishes_total_and_rewinds (s : Moz.State) (t : Mz.State)
    (f g : SndFile) :
    (Moz.PlayAudio ⟨some f, true, true⟩ s).tr.total_frames = f.len ∧
    (Moz.PlayAudio ⟨some f, true, true⟩ s).tr.current_frame = 0 ∧
    (Moz.PlayAudio ⟨some f, true, true⟩ s).g_pw_data = some { f with pos := 0 } ∧
    (Mz.PlayAudio ⟨some g, true, true, true⟩ t).tr.total_frames = g.len ∧
    (Mz.PlayAudio ⟨some g, true, true, true⟩ t).tr.current_frame = 0 ∧
    (Mz.PlayAudio ⟨some g, true, true, true⟩ t).sf = some { g with pos := 0 } := by
  cases hs : s.g_pw_data <;>
    simp [Moz.PlayAudio, Moz.StopAudio, Mz.PlayAudio, sf_seek_cur, hs]

/-- C5: `play` always tears the previous session down first —
`PlayAudio env t` equals `PlayAudio env` of the stopped state, for every
environment and state — and after `play(a); play(b)` (both succeeding)
exactly one session is held, namely `b`'s rewound source, with the
transport describing `b`. -/
theorem play_replaces_session (s : Moz.State) (t : Mz.State) (fa fb : SndFile) :
    (Moz.PlayAudio ⟨some fa, true, true⟩ s).g_pw_data = some { fa with pos := 0 } ∧
    (Moz.PlayAudio ⟨some fb, true, true⟩
      (Moz.PlayAudio ⟨some fa, true, true⟩ s)).g_pw_data = some { fb with pos := 0 } ∧
    (Moz.PlayAudio ⟨some fb, true, true⟩
      (Moz.PlayAudio ⟨some fa, true, true⟩ s)).tr.total_frames = fb.len ∧
    (Moz.PlayAudio ⟨some fb, true, true⟩
      (Moz.PlayAudio ⟨some fa, true, true⟩ s)).tr.current_frame = 0 ∧
    (∀ (env : Moz.Env) (u : Moz.State),
      Moz.PlayAudio env u = Moz.PlayAudio env (Moz.StopAudio u).1) ∧
    (Mz.tuiEnterKey ⟨some fb, true, true, true⟩
      (Mz.tuiEnterKey ⟨some fa, true, true, true⟩ t)).sf = some { fb with pos := 0 } ∧
    (Mz.tuiEnterKey ⟨some fb, true, true, true⟩
      (Mz.tuiEnterKey ⟨some fa, true, true, true⟩ t)).streamOpen = true ∧
    (Mz.tuiEnterKey ⟨some fb, true, true, true⟩
      (Mz.tuiEnterKey ⟨some fa, true, true, true⟩ t)).tr.is_playing = true := by
  have hstop : ∀ (env : Moz.Env) (u : Moz.State),
      Moz.PlayAudio env u = Moz.PlayAudio env (Moz.StopAudio u).1 := by
    intro env u
    cases hu : u.g_pw_data <;> simp [Moz.PlayAudio, Moz.StopAudio, hu]
  refine ⟨?_, ?_, ?_, ?_, hstop, ?_, ?_, ?_⟩ <;>
    first
      | (cases hs : s.g_pw_data <;>
          simp [Moz.PlayAudio, Moz.StopAudio, sf_seek_cur, hs])
      | (cases ht : t.tr.is_playing <;>
          simp [Mz.tuiEnterKey, Mz.PlayAudio, sf_seek_cur, ht])

/-- Helper: with `is_paused` true, an `on_process` sequence of any length
leaves transport and source untouched. -/
theorem runCallbacks_paused (tr : Transport) (sf : SndFile)
    (h : tr.is_paused = true) :
    ∀ bufs, Moz.runCallbacks tr sf bufs = (tr, sf) := by
  intro bufs
  induction bufs with
  | nil => rfl
  | cons b rest ih =>
    have hp : Moz.on_process tr sf b = (tr, sf, List.replicate b.length 0) := by
      simp [Moz.on_process, h]
    simp only [Moz.runCallbacks, hp]
    exact ih

/-- C2: while `is_paused` is true, each callback invocation (both variants)
writes zeroes for the full requested frame count, performs no read and
leaves the transport — in particular `current_frame` — untouched (the mz
variant additionally returns `paContinue`); consequently over any sequence
of paused invocations `current_frame` ends where it started. -/
theorem paused_callback_silence (tr : Transport) (sf : SndFile)
    (buf : List Int) (bufs : List (List Int)) (h : tr.is_paused = true) :
    Moz.on_process tr sf buf = (tr, sf, List.replicate buf.length 0) ∧
    Mz.paCallback tr sf buf = (tr, sf, List.replicate buf.length 0, PaRet.paContinue) ∧
    (Moz.runCallbacks tr sf bufs).1.current_frame = tr.current_frame := by
  refine ⟨by simp [Moz.on_process, h], by simp [Mz.paCallback, h], ?_⟩
  rw [runCallbacks_paused tr sf h bufs]

/-- Witness for C2 at a concrete paused state, a two-frame buffer and a
three-invocation sequence. -/
theorem paused_callback_silence_witness :
    Moz.on_process trPause sfMid [7, 7] = (trPause, sfMid, List.replicate 2 0) ∧
    Mz.paCallback trPause sfMid [7, 7]
      = (trPause, sfMid, List.replicate 2 0, PaRet.paContinue) ∧
    (Moz.runCallbacks trPause sfMid [[7, 7], [7], [7, 7]]).1.current_frame
      = trPause.current_frame :=
  paused_callback_silence trPause sfMid [7, 7] [[7, 7], [7], [7, 7]] rfl

/-- C4: after every unpaused callback invocation (both variants) the
transport's `current_frame` equals the source's absolute frame position
after the read, and the only other modelled operations that touch
`current_frame` are session start/stop — the TUI space handler and the
streaming control-loop iterations never write it. -/
theorem currentFrame_tracks_source (tr : Transport) (sf : SndFile)
    (buf : List Int) (h : tr.is_paused = false) :
    (Moz.on_process tr sf buf).1.current_frame = (Moz.on_process tr sf buf).2.1.pos ∧
    (Mz.paCallback tr sf buf).1.current_frame = (Mz.paCallback tr sf buf).2.1.pos ∧
    (∀ s : Moz.State, (Moz.tuiSpaceKey s).tr.current_frame = s.tr.current_frame) ∧
    (∀ (s : Moz.State) (k : Moz.Key),
      (Moz.streamLoopStep s k).tr.current_frame = s.tr.current_frame) := by
  refine ⟨?_, ?_, ?_, ?_⟩
  · simp only [Moz.on_process, h, Bool.false_eq_true, if_false]
    split <;> simp [sf_seek_cur]
  · simp only [Mz.paCallback, h, Bool.false_eq_true, if_false]
    split <;> simp [sf_seek_cur]
  · intro s
    simp only [Moz.tuiSpaceKey]
    split <;> rfl
  · intro s k
    simp only [Moz.streamLoopStep, Moz.streamHandleKey]
    split <;> [skip; rfl]
    cases k <;> rfl

/-- Witness for C4 at a concrete unpaused state and source. -/
theorem currentFrame_tracks_source_witness :
    (Moz.on_process trRun sfMid [7, 7]).1.current_frame
      = (Moz.on_process trRun sfMid [7, 7]).2.1.pos ∧
    (Mz.paCallback trRun sfMid [7, 7]).1.current_frame
      = (Mz.paCallback trRun sfMid [7, 7]).2.1.pos ∧
    (Moz.tuiSpaceKey mozA).tr.current_frame = mozA.tr.current_frame ∧
    (Moz.streamLoopStep mozA Moz.Key.q).tr.current_frame = mozA.tr.current_frame :=
  have h := currentFrame_tracks_source trRun sfMid [7, 7] rfl
  ⟨h.1, h.2.1, h.2.2.1 mozA, h.2.2.2 mozA Moz.Key.q⟩

/-- Counterexample to C1 as stated: from the idle state (all transport
fields zero), a play attempt in which the source opens (100 frames) but
`pw_main_loop_new` fails leaves `total_frames = 100`, not its prior value
`0` — the Transport State was mutated on the device-failure path. -/
theorem play_device_failure_counterexample :
    (Moz.PlayAudio envLoopFail mozIdle).tr.total_frames ≠
      mozIdle.tr.total_frames := by
  decide

/-- C1 (amended): when the source opens but the output device or stream
cannot be set up, the play attempt aborts with the Frame Source closed and
no session retained, and `is_playing`/`is_paused` are not written by the
construction itself (in the moz variant they are cleared beforehand only
when a previous session had to be stopped); however `total_frames` has
already been set to the new source's frame count and `current_frame` to 0
when the attempt aborts — those two fields do not keep their prior
values.  Stated for both variants. -/
theorem play_device_failure_aborts (env : Moz.Env) (s : Moz.State) (f : SndFile)
    (e2 : Mz.Env) (t : Mz.State) (g : SndFile)
    (hopen : env.openResult = some f)
    (hfail : env.loopOk = false ∨ env.streamOk = false)
    (h2open : e2.openResult = some g)
    (h2init : e2.paInitOk = true)
    (h2fail : e2.openStreamOk = false ∨ e2.startOk = false) :
    (Moz.PlayAudio env s).g_pw_data = none ∧
    (Moz.PlayAudio env s).tr.total_frames = f.len ∧
    (Moz.PlayAudio env s).tr.current_frame = 0 ∧
    (Moz.PlayAudio env s).tr.is_playing
      = (if s.g_pw_data.isSome then false else s.tr.is_playing) ∧
    (Moz.PlayAudio env s).tr.is_paused
      = (if s.g_pw_data.isSome then false else s.tr.is_paused) ∧
    (Mz.PlayAudio e2 t).sf = none ∧
    (Mz.PlayAudio e2 t).streamOpen = false ∧
    (Mz.PlayAudio e2 t).tr.total_frames = g.len ∧
    (Mz.PlayAudio e2 t).tr.current_frame = 0 ∧
    (Mz.PlayAudio e2 t).tr.is_playing = t.tr.is_playing ∧
    (Mz.PlayAudio e2 t).tr.is_paused = t.tr.is_paused := by
  cases hl : env.loopOk <;> cases hst : env.streamOk <;>
    cases h2o : e2.openStreamOk <;> cases h2s : e2.startOk <;>
      cases hs : s.g_pw_data <;>
        simp_all [Moz.PlayAudio, Moz.StopAudio, Mz.PlayAudio, sf_seek_cur]

/-- Witness for C1 (amended), instantiated with a previously active moz
state and an mz environment whose `Pa_OpenStream` fails. -/
theorem play_device_failure_aborts_witness :
    (Moz.PlayAudio envLoopFail mozA).g_pw_data = none ∧
    (Moz.PlayAudio envLoopFail mozA).tr.total_frames = sfHundred.len ∧
    (Moz.PlayAudio envLoopFail mozA).tr.current_frame = 0 ∧
    (Moz.PlayAudio envLoopFail mozA).tr.is_playing
      = (if mozA.g_pw_data.isSome then false else mozA.tr.is_playing) ∧
    (Moz.PlayAudio envLoopFail mozA).tr.is_paused
      = (if mozA.g_pw_data.isSome then false else mozA.tr.is_paused) ∧
    (Mz.PlayAudio mzEnvFail mzIdle).sf = none ∧
    (Mz.PlayAudio mzEnvFail mzIdle).streamOpen = false ∧
    (Mz.PlayAudio mzEnvFail mzIdle).tr.total_frames = sfHundred.len ∧
    (Mz.PlayAudio mzEnvFail mzIdle).tr.current_frame = 0 ∧
    (Mz.PlayAudio mzEnvFail mzIdle).tr.is_playing = mzIdle.tr.is_playing ∧
    (Mz.PlayAudio mzEnvFail mzIdle).tr.is_paused = mzIdle.tr.is_paused :=
  play_device_failure_aborts envLoopFail mozA sfHundred mzEnvFail mzIdle
    sfHundred rfl (Or.inl rfl) rfl rfl (Or.inl rfl)

/-- Helper: a read of `r` frames fills exactly `r` buffer slots. -/
theorem writeFrames_length (sf : SndFile) (r : Nat) :
    (writeFrames sf r).length = r := by
  simp [writeFrames]

/-- Helper: past the written part, a zero-padded buffer reads as zero. -/
theorem getD_append_replicate (a : List Int) (k r i : Nat)
    (hlen : a.length = r) (hri : r ≤ i) :
    (a ++ List.replicate k (0 : Int)).getD i 0 = 0 := by
  subst hlen
  rw [List.getD_eq_getElem?_getD, List.getElem?_append_right hri,
      List.getElem?_replicate]
  split <;> rfl

/-- Helper: past the written part, a buffer whose tail was left in place
reads as the original buffer. -/
theorem getD_append_drop (a buf : List Int) (r i : Nat)
    (hlen : a.length = r) (hri : r ≤ i) :
    (a ++ buf.drop r).getD i 0 = buf.getD i 0 := by
  subst hlen
  rw [List.getD_eq_getElem?_getD, List.getElem?_append_right hri,
      List.getElem?_drop, Nat.add_sub_cancel' hri, ← List.getD_eq_getElem?_getD]

/-- Counterexample to C3 as stated: in the mz (PortAudio) callback a read
that returns fewer frames than requested (1 of 2) does **not** zero-fill
the remainder — output position 1 keeps the stale buffer value 7. -/
theorem callback_short_read_counterexample :
    (sf_readf sfMid ([7, 7] : List Int).length).1 < ([7, 7] : List Int).length ∧
    ((Mz.paCallback trRun sfMid [7, 7]).2.2.1).getD 1 0 ≠ 0 := by
  decide

/-- C3 (amended): while not paused, in the moz (PipeWire) callback a short
read of `r < n` frames zero-fills output positions `r..n-1` and `r = 0`
clears `is_playing` — and `is_playing` is cleared only on `r = 0` (or when
it was already false); in the mz (PortAudio) callback `r = 0` clears
`is_playing` and signals `paComplete`, completion with the session active
on entry happens only when `r = 0`, but a partial non-zero read leaves
output positions `r..n-1` unmodified rather than zero-filled. -/
theorem callback_short_read (tr : Transport) (sf : SndFile) (buf : List Int)
    (h : tr.is_paused = false) :
    (∀ i, (sf_readf sf buf.length).1 ≤ i →
      ((Moz.on_process tr sf buf).2.2).getD i 0 = 0) ∧
    ((sf_readf sf buf.length).1 = 0 →
      (Moz.on_process tr sf buf).1.is_playing = false) ∧
    ((Moz.on_process tr sf buf).1.is_playing = false →
      tr.is_playing = false ∨ (sf_readf sf buf.length).1 = 0) ∧
    ((sf_readf sf buf.length).1 = 0 →
      (Mz.paCallback tr sf buf).2.2.2 = PaRet.paComplete ∧
      (Mz.paCallback tr sf buf).1.is_playing = false) ∧
    ((Mz.paCallback tr sf buf).2.2.2 = PaRet.paComplete →
      tr.is_playing = true → (sf_readf sf buf.length).1 = 0) ∧
    (∀ i, (sf_readf sf buf.length).1 ≤ i → i < buf.length →
      ((Mz.paCallback tr sf buf).2.2.1).getD i 0 = buf.getD i 0) := by
  have hout1 : (Moz.on_process tr sf buf).2.2
      = writeFrames sf ((sf_readf sf buf.length).1)
        ++ List.replicate (buf.length - (sf_readf sf buf.length).1) 0 := by
    simp only [Moz.on_process, h, Bool.false_eq_true, if_false]
    split <;> rfl
  have hout2 : (Mz.paCallback tr sf buf).2.2.1
      = writeFrames sf ((sf_readf sf buf.length).1)
        ++ buf.drop ((sf_readf sf buf.length).1) := by
    simp only [Mz.paCallback, h, Bool.false_eq_true, if_false]
    split <;> rfl
  refine ⟨?_, ?_, ?_, ?_, ?_, ?_⟩
  · intro i hi
    rw [hout1]
    exact getD_append_replicate _ _ _ i (writeFrames_length _ _) hi
  · intro hr0
    simp [Moz.on_process, h, hr0]
  · intro hstop
    by_cases hr : (sf_readf sf buf.length).1 = 0
    · exact Or.inr hr
    · left
      simpa [Moz.on_process, h, hr] using hstop
  · intro hr0
    constructor <;> simp [Mz.paCallback, h, hr0]
  · intro hcomp hplay
    by_contra hr
    have hpos : 0 < (sf_readf sf buf.length).1 := Nat.pos_of_ne_zero hr
    simp [Mz.paCallback, h, hpos, hplay] at hcomp
  · intro i hri hin
    rw [hout2]
    exact getD_append_drop _ buf _ i (writeFrames_length _ _) hri

/-- Witness for C3 (amended): with an exhausted source the moz callback
clears `is_playing` and the mz callback signals completion; with a partial
read the moz callback zeroes position 1 while the mz callback leaves the
stale value there. -/
theorem callback_short_read_witness :
    (Moz.on_process trRun sfEnd [7, 7]).1.is_playing = false ∧
    (Mz.paCallback trRun sfEnd [7, 7]).2.2.2 = PaRet.paComplete ∧
    ((Moz.on_process trRun sfMid [7, 7]).2.2).getD 1 0 = 0 ∧
    ((Mz.paCallback trRun sfMid [7, 7]).2.2.1).getD 1 0 = ([7, 7] : List Int).getD 1 0 :=
  have hE := callback_short_read trRun sfEnd [7, 7] rfl
  have hM := callback_short_read trRun sfMid [7, 7] rfl
  ⟨hE.2.1 (by decide), (hE.2.2.2.1 (by decide)).1,
   hM.1 1 (by decide), hM.2.2.2.2.2 1 (by decide) (by decide)⟩

/-- The character set the generated art may draw from: `ASCII_CHARS` plus
the border/spacing glyphs. -/
def allowedChars : List Char := ASCII_CHARS ++ ['|', '-', '+', ' ']

/-- Helper: any `ASCII_CHARS` lookup with default `' '` lands in
`allowedChars`. -/
theorem ascii_getD_mem (i : Nat) : ASCII_CHARS.getD i ' ' ∈ allowedChars := by
  rcases Nat.lt_or_ge i 10 with hlt | hge
  · interval_cases i <;> decide
  · have hlen : ASCII_CHARS.length ≤ i := by
      simpa [ASCII_CHARS] using hge
    rw [List.getD_eq_default _ _ hlen]
    decide

/-- Helper: indexing a map over `List.range`. -/
theorem getD_map_range {α : Type} (f : Nat → α) (n y : Nat) (d : α) :
    ((List.range n).map f).getD y d = if y < n then f y else d := by
  rcases Nat.lt_or_ge y n with hlt | hge
  · rw [List.getD_eq_getElem _ _ (by simpa using hlt)]
    simp [hlt]
  · rw [List.getD_eq_default _ _ (by simpa using hge)]
    simp [Nat.not_lt.mpr hge]

/-- Helper: every cell the image branch produces is an allowed
character. -/
theorem artCell_mem_allowed (img : List Nat) (y x : Nat) :
    artCell img y x ∈ allowedChars := by
  unfold artCell
  split
  · split <;> decide
  · split
    · decide
    · exact ascii_getD_mem _

/-- Counterexample to C10 as stated: on the null/empty input the generator
returns the placeholder pattern, whose second row contains `'A'` (from
`"ALBUM ARTWORK"`) — a character that is in neither the fixed character
set nor the border/spacing characters. -/
theorem generateASCIIArt_counterexample :
    'A' ∈ (generateASCIIArt none).getD 1 [] ∧ 'A' ∉ allowedChars := by
  decide

/-- C10 (amended): the generator is a total function of its input; for
every input it returns exactly `THUMBNAIL_HEIGHT` (20) rows of exactly
`THUMBNAIL_WIDTH` (40) characters; for non-null, non-empty image data
every character comes from the fixed character set or the border/spacing
characters; for null or empty input the rows are the fixed placeholder
pattern (which also contains letters and `'~'`). -/
theorem generateASCIIArt_shape (img : Option (List Nat)) :
    (generateASCIIArt img).length = THUMBNAIL_HEIGHT ∧
    (∀ row ∈ generateASCIIArt img, row.length = THUMBNAIL_WIDTH) ∧
    (∀ l, img = some l → l ≠ [] →
      ∀ y x, ((generateASCIIArt img).getD y []).getD x ' ' ∈ allowedChars) ∧
    generateASCIIArt none = placeholderArt := by
  have hplace : ∀ row ∈ placeholderArt, row.length = THUMBNAIL_WIDTH := by
    decide
  refine ⟨?_, ?_, ?_, rfl⟩
  · rcases img with - | l
    · decide
    · by_cases hl : l.length = 0 <;> simp [generateASCIIArt, hl, placeholderArt]
  · rcases img with - | l
    · exact hplace
    · by_cases hl : l.length = 0
      · simpa [generateASCIIArt, hl] using hplace
      · intro row hrow
        simp only [generateASCIIArt, hl, if_false] at hrow
        rcases List.mem_map.mp hrow with ⟨y, -, hy⟩
        simp [← hy]
  · intro l hl hne y x
    subst hl
    have hlen : l.length ≠ 0 := fun h0 => hne (List.eq_nil_of_length_eq_zero h0)
    simp only [generateASCIIArt, hlen, if_false]
    rw [getD_map_range]
    split
    · rw [getD_map_range]
      split
      · exact artCell_mem_allowed l y x
      · decide
    · show (([] : List Char).getD x ' ') ∈ allowedChars
      rw [List.getD_eq_default _ _ (by simp)]
      decide

/-- Witness for C10 (amended) at a concrete non-empty image and the null
input. -/
theorem generateASCIIArt_shape_witness :
    (generateASCIIArt (some imgSmall)).length = THUMBNAIL_HEIGHT ∧
    ((generateASCIIArt none).getD 0 []).length = THUMBNAIL_WIDTH ∧
    ((generateASCIIArt (some imgSmall)).getD 5 []).getD 7 ' ' ∈ allowedChars ∧
    generateASCIIArt none = placeholderArt :=
  have h1 := generateASCIIArt_shape (some imgSmall)
  have h2 := generateASCIIArt_shape none
  ⟨h1.1, h2.2.1 _ (by decide), h1.2.2.1 imgSmall rfl (by decide) 5 7, h2.2.2.2⟩
